import Mathlib

/-!
Verification of the color-palette core of `src/script.js` (Color-website).

The core consists of three functions of the `ColorLab` class:
  * `calculateHarmonies` (script.js lines 358-423): derives five HSL triples
    from a base HSL and a harmony mode string;
  * `hslToHex` (script.js lines 454-463): converts an HSL triple to an
    uppercase `#RRGGBB` hex string;
  * `getContrastColor` (script.js lines 465-471): picks a dark or light
    contrast color from a hex string via the YIQ luma formula.

The JavaScript number arithmetic is modelled by exact rational arithmetic
(`ℚ`); all inputs appearing in the claims are small integers on which the
double-precision evaluation is exact or whose properties are insensitive to
rounding at the magnitudes involved.  `Math.random()` is modelled by an
explicit stream `rng : ℕ → ℚ` of the successive values it returns, so the
non-deterministic fallback branch becomes a function of the stream.
-/

namespace ColorLab

/-- JavaScript truncation toward zero, the rounding used by the `%` operator. -/
def jsTrunc (x : ℚ) : ℤ := if 0 ≤ x then ⌊x⌋ else ⌈x⌉

/-- JavaScript remainder operator `a % b` on numbers: `a - b * trunc (a / b)`. -/
def jsMod (a b : ℚ) : ℚ := a - b * jsTrunc (a / b)

/-- JavaScript `Math.round`: round half toward positive infinity. -/
def jsRound (x : ℚ) : ℤ := ⌊x + 1/2⌋

/-- The local helper of `calculateHarmonies` (script.js line 362):
`clip = (val, min, max) => Math.max(min, Math.min(val, max))`. -/
def clip (val lo hi : ℚ) : ℚ := max lo (min val hi)

/-- An HSL triple as produced by `calculateHarmonies`
(objects `{ h, s, l }` in the source). -/
structure HSL where
  h : ℚ
  s : ℚ
  l : ℚ
deriving DecidableEq

/-- The harmony mode strings recognized by the `switch` in
`calculateHarmonies` (script.js lines 364-418). -/
def recognizedModes : List String :=
  ["monochromatic", "analogous", "complementary", "triadic",
   "split-complementary", "square"]

/-- Embedding of `calculateHarmonies(h, s, l)` (script.js lines 358-423).
The source reads the mode from `this.state.mode`; here it is the explicit
first argument.  The `default` branch pushes five objects
`{ h: Math.random() * 360, s: 60, l: 50 }`; the successive values returned
by `Math.random()` are supplied by the stream `rng`. -/
def calculateHarmonies (mode : String) (h s l : ℚ) (rng : ℕ → ℚ) : List HSL :=
  if mode = "monochromatic" then
    [⟨h, s, clip (l - 30) 20 90⟩,
     ⟨h, s, clip (l - 15) 20 90⟩,
     ⟨h, s, l⟩,
     ⟨h, s, clip (l + 15) 20 90⟩,
     ⟨h, s, clip (l + 30) 20 95⟩]
  else if mode = "analogous" then
    [⟨jsMod (h - 30 + 360) 360, s, l⟩,
     ⟨jsMod (h - 15 + 360) 360, s, l⟩,
     ⟨h, s, l⟩,
     ⟨jsMod (h + 15) 360, s, l⟩,
     ⟨jsMod (h + 30) 360, s, l⟩]
  else if mode = "complementary" then
    [⟨h, s, l⟩,
     ⟨h, s, clip (l + 25) 20 90⟩,
     ⟨h, max (s - 20) 0, clip (l + 45) 80 98⟩,
     ⟨jsMod (h + 180) 360, s, l⟩,
     ⟨jsMod (h + 180) 360, s, clip (l - 20) 10 80⟩]
  else if mode = "triadic" then
    [⟨h, s, l⟩,
     ⟨jsMod (h + 120) 360, s, l⟩,
     ⟨jsMod (h + 240) 360, s, l⟩,
     ⟨jsMod (h + 120) 360, s, clip (l + 20) 20 90⟩,
     ⟨jsMod (h + 240) 360, s, clip (l - 20) 20 90⟩]
  else if mode = "split-complementary" then
    [⟨h, s, l⟩,
     ⟨jsMod (h + 150) 360, s, l⟩,
     ⟨jsMod (h + 210) 360, s, l⟩,
     ⟨jsMod (h + 150) 360, max (s - 10) 0, clip (l + 20) 70 95⟩,
     ⟨jsMod (h + 210) 360, max (s - 10) 0, clip (l - 20) 10 50⟩]
  else if mode = "square" then
    [⟨h, s, l⟩,
     ⟨jsMod (h + 90) 360, s, l⟩,
     ⟨jsMod (h + 180) 360, s, l⟩,
     ⟨jsMod (h + 270) 360, s, l⟩,
     ⟨jsMod (h + 90) 360, s, clip (l + 30) 80 95⟩]
  else
    (List.range 5).map fun i => ⟨rng i * 360, 60, 50⟩

/-- JavaScript `String.prototype.padStart(2, '0')` on a character list. -/
def padStart2 (cs : List Char) : List Char :=
  List.replicate (2 - cs.length) '0' ++ cs

/-- JavaScript `Number.prototype.toString(16)` for an integer value:
lowercase hex digits, a leading minus sign for negative values
(`Nat.toDigits 16` produces exactly the lowercase digit characters). -/
def intToString16 (v : ℤ) : List Char :=
  if v < 0 then '-' :: Nat.toDigits 16 v.natAbs else Nat.toDigits 16 v.toNat

/-- The integer channel value computed inside the closure `f` of `hslToHex`
(script.js lines 457-461):
```
const k = (n + h / 30) % 12;
const color = l - a * Math.max(Math.min(k - 3, 9 - k, 1), -1);
... Math.round(255 * color) ...
```
with `l /= 100` and `a = s * Math.min(l, 1 - l) / 100` from the enclosing
scope. -/
def hslChannel (h s l n : ℚ) : ℤ :=
  let lp := l / 100
  let a := s * min lp (1 - lp) / 100
  let k := jsMod (n + h / 30) 12
  jsRound (255 * (lp - a * max (min (min (k - 3) (9 - k)) 1) (-1)))

/-- The closure `f` of `hslToHex`: the channel value rendered with
`.toString(16).padStart(2, '0')`. -/
def hslF (h s l n : ℚ) : List Char :=
  padStart2 (intToString16 (hslChannel h s l n))

/-- Embedding of `hslToHex(h, s, l)` (script.js lines 454-463):
`` return `#${f(0)}${f(8)}${f(4)}`.toUpperCase(); ``. -/
def hslToHex (h s l : ℚ) : String :=
  String.mk (('#' :: (hslF h s l 0 ++ hslF h s l 8 ++ hslF h s l 4)).map Char.toUpper)

/-- JavaScript `String.prototype.substr(start, len)` as a character list. -/
def jsSubstr (s : String) (start len : ℕ) : List Char :=
  (s.toList.drop start).take len

/-- Whether a character is a hexadecimal digit (either case), the digit
set accepted by `parseInt(·, 16)`. -/
def isHexDigitChar (c : Char) : Bool :=
  ('0' ≤ c && c ≤ '9') || ('a' ≤ c && c ≤ 'f') || ('A' ≤ c && c ≤ 'F')

/-- Numeric value of a hexadecimal digit character (0 for other characters). -/
def hexVal (c : Char) : ℕ :=
  if '0' ≤ c && c ≤ '9' then c.toNat - '0'.toNat
  else if 'a' ≤ c && c ≤ 'f' then c.toNat - 'a'.toNat + 10
  else if 'A' ≤ c && c ≤ 'F' then c.toNat - 'A'.toNat + 10
  else 0

/-- Accumulate the longest prefix of hexadecimal digits, as
`parseInt(·, 16)` does after its first digit. -/
def parseHexAux : List Char → ℕ → ℕ
  | [], acc => acc
  | c :: rest, acc =>
    if isHexDigitChar c then parseHexAux rest (16 * acc + hexVal c) else acc

/-- Parse an unsigned hexadecimal numeral prefix; `none` when the first
character is not a hexadecimal digit (the `NaN` outcome). -/
def parseUnsignedHex (cs : List Char) : Option ℕ :=
  match cs with
  | [] => none
  | c :: _ => if isHexDigitChar c then some (parseHexAux cs 0) else none

/-- Model of JavaScript `parseInt(s, 16)`: an optional sign followed by the
longest hexadecimal-digit prefix; `none` models the `NaN` result.  (The
model omits `parseInt`'s leading-whitespace and `0x`-prefix handling,
which none of the inputs considered in the claims exercises.) -/
def jsParseIntHex (cs : List Char) : Option ℤ :=
  match cs with
  | [] => none
  | c :: rest =>
    if c = '-' then (parseUnsignedHex rest).map (fun n => -(n : ℤ))
    else if c = '+' then (parseUnsignedHex rest).map (fun n => (n : ℤ))
    else (parseUnsignedHex cs).map (fun n => (n : ℤ))

/-- Embedding of `getContrastColor(hex)` (script.js lines 465-471):
```
const r = parseInt(hex.substr(1, 2), 16);
const g = parseInt(hex.substr(3, 2), 16);
const b = parseInt(hex.substr(5, 2), 16);
const yiq = ((r * 299) + (g * 587) + (b * 114)) / 1000;
return (yiq >= 128) ? '#0f1219' : '#ffffff';
```
When any channel parses to `NaN`, `yiq` is `NaN` and the comparison
`yiq >= 128` is false, so the light color is returned; the `match`
fall-through models that. -/
def getContrastColor (hex : String) : String :=
  match jsParseIntHex (jsSubstr hex 1 2), jsParseIntHex (jsSubstr hex 3 2),
        jsParseIntHex (jsSubstr hex 5 2) with
  | some r, some g, some b =>
    if (128 : ℚ) ≤ ((r * 299) + (g * 587) + (b * 114) : ℤ) / 1000
    then "#0f1219" else "#ffffff"
  | _, _, _ => "#ffffff"

/-- Uppercase-hex-digit predicate for stating the `#RRGGBB` output shape. -/
def isUpperHexDigit (c : Char) : Bool :=
  ('0' ≤ c && c ≤ '9') || ('A' ≤ c && c ≤ 'F')

end ColorLab

namespace ColorLab

/-! ### Helper lemmas -/

/-- The `clip` helper lands in `[lo, hi]` whenever `lo ≤ hi`. -/
theorem clip_mem (v lo hi : ℚ) (h : lo ≤ hi) :
    lo ≤ clip v lo hi ∧ clip v lo hi ≤ hi :=
  ⟨le_max_left _ _, max_le h (min_le_right _ _)⟩

/-- For a nonnegative dividend and positive divisor, the JavaScript
remainder lands in `[0, b)`. -/
theorem jsMod_mem (a b : ℚ) (ha : 0 ≤ a) (hb : 0 < b) :
    0 ≤ jsMod a b ∧ jsMod a b < b := by
  have hb' : b ≠ 0 := ne_of_gt hb
  have htr : jsTrunc (a / b) = ⌊a / b⌋ := if_pos (div_nonneg ha hb.le)
  have hfr : jsMod a b = b * Int.fract (a / b) := by
    rw [jsMod, htr, Int.fract]
    field_simp
  constructor
  · rw [hfr]
    exact mul_nonneg hb.le (Int.fract_nonneg _)
  · rw [hfr]
    calc b * Int.fract (a / b) < b * 1 :=
          (mul_lt_mul_left hb).mpr (Int.fract_lt_one _)
    _ = b := mul_one b

/-- On a nonnegative integer dividend and positive natural divisor, the
JavaScript remainder agrees with integer `emod`. -/
theorem jsMod_intCast (a : ℤ) (b : ℕ) (ha : 0 ≤ a) (hb : 0 < b) :
    jsMod (a : ℚ) (b : ℚ) = ((a % (b : ℤ) : ℤ) : ℚ) := by
  have htr : jsTrunc ((a : ℚ) / (b : ℚ)) = ⌊(a : ℚ) / (b : ℚ)⌋ :=
    if_pos (div_nonneg (by exact_mod_cast ha) (by positivity))
  rw [jsMod, htr, Rat.floor_intCast_div_natCast, Int.emod_def]
  push_cast
  ring

/-- Convenience form of `jsMod_mem` for the 360-degree hue wrap. -/
theorem hue_wrap_mem (x : ℚ) (hx : 0 ≤ x) :
    0 ≤ jsMod x 360 ∧ jsMod x 360 < 360 :=
  jsMod_mem x 360 hx (by norm_num)

end ColorLab

namespace ColorLab

/-- Claim C1: `hslToHex` matches the reference values `#000000`, `#FFFFFF`,
`#FF0000`, `#00FF00`, `#0000FF` on the five reference HSL inputs. -/
theorem claim_C1_hslToHex_reference_values :
    hslToHex 0 0 0 = "#000000" ∧ hslToHex 0 0 100 = "#FFFFFF" ∧
    hslToHex 0 100 50 = "#FF0000" ∧ hslToHex 120 100 50 = "#00FF00" ∧
    hslToHex 240 100 50 = "#0000FF" := by
  refine ⟨?_, ?_, ?_, ?_, ?_⟩ <;>
  · simp only [hslToHex, hslF]
    norm_num [hslChannel, jsMod, jsTrunc, jsRound, min_def, max_def]
    decide

end ColorLab

namespace ColorLab

set_option maxRecDepth 4096 in
/-- Rendering any byte value with `.toString(16).padStart(2, '0')` and
uppercasing yields exactly two uppercase hexadecimal digits. -/
theorem hexByte_shape : ∀ n : ℕ, n < 256 →
    ((padStart2 (intToString16 n)).map Char.toUpper).length = 2 ∧
    ∀ c ∈ (padStart2 (intToString16 n)).map Char.toUpper,
      isUpperHexDigit c = true := by
  decide

/-- Integer version of `hexByte_shape` for values in `[0, 255]`. -/
theorem hexByteInt_shape (v : ℤ) (h0 : 0 ≤ v) (h1 : v ≤ 255) :
    ((padStart2 (intToString16 v)).map Char.toUpper).length = 2 ∧
    ∀ c ∈ (padStart2 (intToString16 v)).map Char.toUpper,
      isUpperHexDigit c = true := by
  have hv : v = (v.toNat : ℤ) := (Int.toNat_of_nonneg h0).symm
  have hlt : v.toNat < 256 := by omega
  rw [hv]
  exact hexByte_shape v.toNat hlt

/-- The channel value computed by `hslToHex` lies in `[0, 255]` whenever
the saturation and lightness inputs lie in `[0, 100]`. -/
theorem hslChannel_mem (h s l n : ℚ) (hs0 : 0 ≤ s) (hs1 : s ≤ 100)
    (hl0 : 0 ≤ l) (hl1 : l ≤ 100) :
    0 ≤ hslChannel h s l n ∧ hslChannel h s l n ≤ 255 := by
  simp only [hslChannel]
  set k := jsMod (n + h / 30) 12 with hk
  set lp := l / 100 with hlp
  set t := max (min (min (k - 3) (9 - k)) 1) (-1) with ht
  set a := s * min lp (1 - lp) / 100 with ha
  have hlp0 : 0 ≤ lp := by positivity
  have hlp1 : lp ≤ 1 := by rw [hlp]; linarith
  have hm0 : 0 ≤ min lp (1 - lp) := le_min hlp0 (by linarith)
  have hm1 : min lp (1 - lp) ≤ lp := min_le_left _ _
  have hm2 : min lp (1 - lp) ≤ 1 - lp := min_le_right _ _
  have ha0 : 0 ≤ a := by rw [ha]; positivity
  have ha1 : a ≤ min lp (1 - lp) := by
    rw [ha]
    nlinarith
  have ht0 : -1 ≤ t := le_max_right _ _
  have ht1 : t ≤ 1 := max_le (le_trans (min_le_right _ _) le_rfl) (by norm_num)
  have hc0 : 0 ≤ lp - a * t := by nlinarith
  have hc1 : lp - a * t ≤ 1 := by nlinarith
  constructor
  · rw [jsRound]
    have : (0 : ℚ) ≤ 255 * (lp - a * t) + 1/2 := by nlinarith
    exact Int.le_floor.mpr (by push_cast; linarith)
  · rw [jsRound]
    have : 255 * (lp - a * t) + 1/2 < 256 := by nlinarith
    have hfl : ⌊255 * (lp - a * t) + 1/2⌋ < 256 := Int.floor_lt.mpr (by push_cast; linarith)
    omega

/-- Claim C6: for integer inputs `h ∈ [0,360)`, `s, l ∈ [0,100]`,
`hslToHex` returns a 7-character string: `'#'` followed by six uppercase
hexadecimal digits, each channel value landing in `[0, 255]` and rendering
as exactly two hex digits. -/
theorem claim_C6_hslToHex_shape (h s l : ℤ)
    (hh0 : 0 ≤ h) (hh1 : h < 360) (hs0 : 0 ≤ s) (hs1 : s ≤ 100)
    (hl0 : 0 ≤ l) (hl1 : l ≤ 100) :
    (hslToHex (h : ℚ) (s : ℚ) (l : ℚ)).length = 7 ∧
    (hslToHex (h : ℚ) (s : ℚ) (l : ℚ)).toList.head? = some '#' ∧
    (∀ c ∈ (hslToHex (h : ℚ) (s : ℚ) (l : ℚ)).toList.tail,
      isUpperHexDigit c = true) ∧
    (∀ n : ℚ, 0 ≤ hslChannel (h : ℚ) (s : ℚ) (l : ℚ) n ∧
      hslChannel (h : ℚ) (s : ℚ) (l : ℚ) n ≤ 255) := by
  have hs0' : (0 : ℚ) ≤ (s : ℚ) := by exact_mod_cast hs0
  have hs1' : (s : ℚ) ≤ 100 := by exact_mod_cast hs1
  have hl0' : (0 : ℚ) ≤ (l : ℚ) := by exact_mod_cast hl0
  have hl1' : (l : ℚ) ≤ 100 := by exact_mod_cast hl1
  have hch : ∀ n : ℚ, 0 ≤ hslChannel (h : ℚ) (s : ℚ) (l : ℚ) n ∧
      hslChannel (h : ℚ) (s : ℚ) (l : ℚ) n ≤ 255 :=
    fun n => hslChannel_mem _ _ _ n hs0' hs1' hl0' hl1'
  have hshape : ∀ n : ℚ, ((hslF (h : ℚ) (s : ℚ) (l : ℚ) n).map Char.toUpper).length = 2 ∧
      ∀ c ∈ (hslF (h : ℚ) (s : ℚ) (l : ℚ) n).map Char.toUpper,
        isUpperHexDigit c = true := by
    intro n
    exact hexByteInt_shape _ (hch n).1 (hch n).2
  refine ⟨?_, ?_, ?_, hch⟩
  · show (('#' :: (hslF _ _ _ 0 ++ hslF _ _ _ 8 ++ hslF _ _ _ 4)).map Char.toUpper).length = 7
    simp only [List.map_cons, List.map_append, List.length_cons, List.length_append,
      (hshape 0).1, (hshape 8).1, (hshape 4).1]
  · show (('#' :: (hslF _ _ _ 0 ++ hslF _ _ _ 8 ++ hslF _ _ _ 4)).map Char.toUpper).head? = some '#'
    simp only [List.map_cons, List.head?_cons]
    decide
  · show ∀ c ∈ (('#' :: (hslF _ _ _ 0 ++ hslF _ _ _ 8 ++ hslF _ _ _ 4)).map Char.toUpper).tail,
      isUpperHexDigit c = true
    simp only [List.map_cons, List.map_append, List.tail_cons, List.mem_append]
    intro c hc
    rcases hc with hc | hc
    · rcases hc with hc | hc
      · exact (hshape 0).2 c hc
      · exact (hshape 8).2 c hc
    · exact (hshape 4).2 c hc

/-- Witness for C6 at `(h, s, l) = (0, 50, 50)`. -/
theorem claim_C6_witness :
    (hslToHex ((0 : ℤ) : ℚ) ((50 : ℤ) : ℚ) ((50 : ℤ) : ℚ)).length = 7 ∧
    (hslToHex ((0 : ℤ) : ℚ) ((50 : ℤ) : ℚ) ((50 : ℤ) : ℚ)).toList.head? = some '#' ∧
    (∀ c ∈ (hslToHex ((0 : ℤ) : ℚ) ((50 : ℤ) : ℚ) ((50 : ℤ) : ℚ)).toList.tail,
      isUpperHexDigit c = true) ∧
    (∀ n : ℚ, 0 ≤ hslChannel ((0 : ℤ) : ℚ) ((50 : ℤ) : ℚ) ((50 : ℤ) : ℚ) n ∧
      hslChannel ((0 : ℤ) : ℚ) ((50 : ℤ) : ℚ) ((50 : ℤ) : ℚ) n ≤ 255) :=
  claim_C6_hslToHex_shape 0 50 50 (by decide) (by decide) (by decide) (by decide)
    (by decide) (by decide)

end ColorLab

namespace ColorLab

/-- Parsing a two-hex-digit string with `parseInt(·, 16)` returns the byte value. -/
theorem jsParseIntHex_pair (c d : Char)
    (hc : isHexDigitChar c = true) (hd : isHexDigitChar d = true) :
    jsParseIntHex [c, d] = some ((16 * hexVal c + hexVal d : ℕ) : ℤ) := by
  have hc1 : c ≠ '-' := by
    rintro rfl
    exact absurd hc (by decide)
  have hc2 : c ≠ '+' := by
    rintro rfl
    exact absurd hc (by decide)
  simp [jsParseIntHex, parseUnsignedHex, parseHexAux, hc, hd, hc1, hc2]

/-- On a well-formed 7-character `#RRGGBB` input, `getContrastColor`
reduces to the YIQ threshold test on the three parsed byte channels. -/
theorem getContrastColor_wellFormed (c1 c2 c3 c4 c5 c6 : Char)
    (h1 : isHexDigitChar c1 = true) (h2 : isHexDigitChar c2 = true)
    (h3 : isHexDigitChar c3 = true) (h4 : isHexDigitChar c4 = true)
    (h5 : isHexDigitChar c5 = true) (h6 : isHexDigitChar c6 = true) :
    getContrastColor (String.mk ['#', c1, c2, c3, c4, c5, c6]) =
      if (128 : ℚ) ≤ (((16 * hexVal c1 + hexVal c2 : ℕ) : ℤ) * 299 +
          ((16 * hexVal c3 + hexVal c4 : ℕ) : ℤ) * 587 +
          ((16 * hexVal c5 + hexVal c6 : ℕ) : ℤ) * 114 : ℤ) / 1000
      then "#0f1219" else "#ffffff" := by
  have e1 : jsSubstr (String.mk ['#', c1, c2, c3, c4, c5, c6]) 1 2 = [c1, c2] := rfl
  have e2 : jsSubstr (String.mk ['#', c1, c2, c3, c4, c5, c6]) 3 2 = [c3, c4] := rfl
  have e3 : jsSubstr (String.mk ['#', c1, c2, c3, c4, c5, c6]) 5 2 = [c5, c6] := rfl
  simp only [getContrastColor, e1, e2, e3, jsParseIntHex_pair c1 c2 h1 h2,
    jsParseIntHex_pair c3 c4 h3 h4, jsParseIntHex_pair c5 c6 h5 h6]

end ColorLab

namespace ColorLab

/-- Claim C2: on every well-formed 7-character `#RRGGBB` input,
`getContrastColor` returns the dark color `#0f1219` exactly when
`yiq = (299*r + 587*g + 114*b) / 1000` reaches 128 and the light color
`#ffffff` otherwise; in particular `#FFFFFF` maps to the dark color and
`#000000` to the light one. -/
theorem claim_C2_contrast_yiq_threshold (c1 c2 c3 c4 c5 c6 : Char)
    (h1 : isHexDigitChar c1 = true) (h2 : isHexDigitChar c2 = true)
    (h3 : isHexDigitChar c3 = true) (h4 : isHexDigitChar c4 = true)
    (h5 : isHexDigitChar c5 = true) (h6 : isHexDigitChar c6 = true) :
    (getContrastColor (String.mk ['#', c1, c2, c3, c4, c5, c6]) = "#0f1219" ↔
      (128 : ℚ) ≤ (299 * ((16 * hexVal c1 + hexVal c2 : ℕ) : ℚ) +
        587 * ((16 * hexVal c3 + hexVal c4 : ℕ) : ℚ) +
        114 * ((16 * hexVal c5 + hexVal c6 : ℕ) : ℚ)) / 1000) ∧
    (getContrastColor (String.mk ['#', c1, c2, c3, c4, c5, c6]) = "#ffffff" ↔
      ¬ (128 : ℚ) ≤ (299 * ((16 * hexVal c1 + hexVal c2 : ℕ) : ℚ) +
        587 * ((16 * hexVal c3 + hexVal c4 : ℕ) : ℚ) +
        114 * ((16 * hexVal c5 + hexVal c6 : ℕ) : ℚ)) / 1000) ∧
    getContrastColor "#FFFFFF" = "#0f1219" ∧
    getContrastColor "#000000" = "#ffffff" := by
  have hEq : ((((16 * hexVal c1 + hexVal c2 : ℕ) : ℤ) * 299 +
      ((16 * hexVal c3 + hexVal c4 : ℕ) : ℤ) * 587 +
      ((16 * hexVal c5 + hexVal c6 : ℕ) : ℤ) * 114 : ℤ) : ℚ) / 1000 =
      (299 * ((16 * hexVal c1 + hexVal c2 : ℕ) : ℚ) +
        587 * ((16 * hexVal c3 + hexVal c4 : ℕ) : ℚ) +
        114 * ((16 * hexVal c5 + hexVal c6 : ℕ) : ℚ)) / 1000 := by
    push_cast
    ring
  have hwf := getContrastColor_wellFormed c1 c2 c3 c4 c5 c6 h1 h2 h3 h4 h5 h6
  rw [hEq] at hwf
  have hwhite : getContrastColor "#FFFFFF" = "#0f1219" := by
    have e : getContrastColor "#FFFFFF"
        = if (128 : ℚ) ≤ ((255 * 299) + (255 * 587) + (255 * 114) : ℤ) / 1000
          then "#0f1219" else "#ffffff" := by rfl
    rw [e, if_pos (by norm_num)]
  have hblack : getContrastColor "#000000" = "#ffffff" := by
    have e : getContrastColor "#000000"
        = if (128 : ℚ) ≤ ((0 * 299) + (0 * 587) + (0 * 114) : ℤ) / 1000
          then "#0f1219" else "#ffffff" := by rfl
    rw [e, if_neg (by norm_num)]
  refine ⟨?_, ?_, hwhite, hblack⟩
  · rw [hwf]
    split_ifs with hq
    · exact iff_of_true rfl hq
    · exact iff_of_false (by decide) hq
  · rw [hwf]
    split_ifs with hq
    · exact iff_of_false (by decide) (not_not_intro hq)
    · exact iff_of_true rfl hq

/-- Witness for C2 at the all-`F` input `#FFFFFF`. -/
theorem claim_C2_witness : getContrastColor "#FFFFFF" = "#0f1219" :=
  (claim_C2_contrast_yiq_threshold 'F' 'F' 'F' 'F' 'F' 'F'
    (by decide) (by decide) (by decide) (by decide) (by decide) (by decide)).2.2.1

end ColorLab

namespace ColorLab

/-- Counterexample to claim C4: on the malformed input `"red"` the source's
`getContrastColor` does not fail with an `InvalidFormat` error; it returns
the result `"#ffffff"`. -/
theorem claim_C4_counterexample : getContrastColor "red" = "#ffffff" := by rfl

/-- Claim C4 as amended: for malformed inputs such as `"red"`, `"#FFF"` and
`""`, `getContrastColor` does not fail: it still returns a contrast color,
namely the light color `"#ffffff"` on these three inputs. -/
theorem claim_C4_amended_no_failure :
    getContrastColor "red" = "#ffffff" ∧ getContrastColor "#FFF" = "#ffffff" ∧
    getContrastColor "" = "#ffffff" := ⟨rfl, rfl, rfl⟩

/-- Claim C10: `getContrastColor` is total on strings with image contained
in `{"#0f1219", "#ffffff"}`, and whenever one of the three channel
substrings fails to parse, the light color `"#ffffff"` is returned. -/
theorem claim_C10_total_two_element_image :
    (∀ s : String,
      getContrastColor s = "#0f1219" ∨ getContrastColor s = "#ffffff") ∧
    (∀ s : String,
      (jsParseIntHex (jsSubstr s 1 2) = none ∨
       jsParseIntHex (jsSubstr s 3 2) = none ∨
       jsParseIntHex (jsSubstr s 5 2) = none) →
      getContrastColor s = "#ffffff") := by
  constructor
  · intro s
    rcases e1 : jsParseIntHex (jsSubstr s 1 2) with _ | r
    · right
      simp [getContrastColor, e1]
    rcases e2 : jsParseIntHex (jsSubstr s 3 2) with _ | g
    · right
      simp [getContrastColor, e1, e2]
    rcases e3 : jsParseIntHex (jsSubstr s 5 2) with _ | b
    · right
      simp [getContrastColor, e1, e2, e3]
    simp only [getContrastColor, e1, e2, e3]
    split_ifs with hq
    · left
      rfl
    · right
      rfl
  · intro s hfail
    rcases e1 : jsParseIntHex (jsSubstr s 1 2) with _ | r
    · simp [getContrastColor, e1]
    rcases e2 : jsParseIntHex (jsSubstr s 3 2) with _ | g
    · simp [getContrastColor, e1, e2]
    rcases e3 : jsParseIntHex (jsSubstr s 5 2) with _ | b
    · simp [getContrastColor, e1, e2, e3]
    rcases hfail with hf | hf | hf
    · rw [e1] at hf
      exact absurd hf (by simp)
    · rw [e2] at hf
      exact absurd hf (by simp)
    · rw [e3] at hf
      exact absurd hf (by simp)

/-- Witness for C10's parse-failure clause at the empty string. -/
theorem claim_C10_witness : getContrastColor "" = "#ffffff" :=
  claim_C10_total_two_element_image.2 "" (Or.inl (by rfl))

end ColorLab

namespace ColorLab

/-- Counterexample to claim C3: at `(h, s, l) = (0, 50, 0)` the middle
(base) slot of the monochromatic palette keeps the unclamped lightness 0,
which is outside the claimed clamped range `[20, 90]`. -/
theorem claim_C3_counterexample :
    (calculateHarmonies "monochromatic" 0 50 0 fun _ => 0).map HSL.l
      = [20, 20, 0, 20, 30] ∧ ¬ ((20 : ℚ) ≤ 0) := by
  constructor
  · norm_num [calculateHarmonies, clip, min_def, max_def]
  · norm_num

/-- Claim C3 as amended: the monochromatic palette keeps `h` and `s` and
uses lightness values `clip(l-30)`, `clip(l-15)`, `l`, `clip(l+15)` into
`[20, 90]` and `clip(l+30)` into `[20, 95]`; every slot except the middle
one lies in its documented clamped range, while the middle slot is the
unclamped base lightness `l`. -/
theorem claim_C3_amended_monochromatic (h s l : ℚ) (rng : ℕ → ℚ)
    (hh0 : 0 ≤ h) (hh1 : h < 360) (hs0 : 0 ≤ s) (hs1 : s ≤ 100)
    (hl0 : 0 ≤ l) (hl1 : l ≤ 100) :
    calculateHarmonies "monochromatic" h s l rng =
      [⟨h, s, clip (l - 30) 20 90⟩, ⟨h, s, clip (l - 15) 20 90⟩, ⟨h, s, l⟩,
       ⟨h, s, clip (l + 15) 20 90⟩, ⟨h, s, clip (l + 30) 20 95⟩] ∧
    (∀ x ∈ [clip (l - 30) 20 90, clip (l - 15) 20 90, clip (l + 15) 20 90],
      20 ≤ x ∧ x ≤ 90) ∧
    (20 ≤ clip (l + 30) 20 95 ∧ clip (l + 30) 20 95 ≤ 95) := by
  refine ⟨by simp [calculateHarmonies], ?_, clip_mem _ _ _ (by norm_num)⟩
  intro x hx
  simp only [List.mem_cons, List.not_mem_nil, or_false] at hx
  rcases hx with rfl | rfl | rfl <;> exact clip_mem _ _ _ (by norm_num)

/-- Witness for the amended C3 at `(h, s, l) = (0, 50, 50)`. -/
theorem claim_C3_witness :
    calculateHarmonies "monochromatic" 0 50 50 (fun _ => 0) =
      [⟨0, 50, clip (50 - 30) 20 90⟩, ⟨0, 50, clip (50 - 15) 20 90⟩, ⟨0, 50, 50⟩,
       ⟨0, 50, clip (50 + 15) 20 90⟩, ⟨0, 50, clip (50 + 30) 20 95⟩] :=
  (claim_C3_amended_monochromatic 0 50 50 (fun _ => 0) (by norm_num) (by norm_num)
    (by norm_num) (by norm_num) (by norm_num) (by norm_num)).1

/-- Claim C5: the triadic palette is the base triple, the two triples with
hues shifted by 120 and 240 degrees modulo 360, and those two shifted hues
again with lightness `clip(l+20)` and `clip(l-20)` into `[20, 90]`; at the
base `(0, 50, 50)` this yields `(0,50,50), (120,50,50), (240,50,50),
(120,50,70), (240,50,30)` in that order. -/
theorem claim_C5_triadic (h s l : ℤ) (rng : ℕ → ℚ)
    (hh0 : 0 ≤ h) (hh1 : h < 360) (hs0 : 0 ≤ s) (hs1 : s ≤ 100)
    (hl0 : 0 ≤ l) (hl1 : l ≤ 100) :
    calculateHarmonies "triadic" (h : ℚ) (s : ℚ) (l : ℚ) rng =
      [⟨(h : ℚ), (s : ℚ), (l : ℚ)⟩,
       ⟨(((h + 120) % 360 : ℤ) : ℚ), (s : ℚ), (l : ℚ)⟩,
       ⟨(((h + 240) % 360 : ℤ) : ℚ), (s : ℚ), (l : ℚ)⟩,
       ⟨(((h + 120) % 360 : ℤ) : ℚ), (s : ℚ), clip ((l : ℚ) + 20) 20 90⟩,
       ⟨(((h + 240) % 360 : ℤ) : ℚ), (s : ℚ), clip ((l : ℚ) - 20) 20 90⟩] ∧
    calculateHarmonies "triadic" 0 50 50 rng =
      [⟨0, 50, 50⟩, ⟨120, 50, 50⟩, ⟨240, 50, 50⟩, ⟨120, 50, 70⟩, ⟨240, 50, 30⟩] := by
  have e120 := jsMod_intCast (h + 120) 360 (by omega) (by norm_num)
  have e240 := jsMod_intCast (h + 240) 360 (by omega) (by norm_num)
  push_cast at e120 e240
  constructor
  · simp only [calculateHarmonies, String.reduceEq, if_true, if_false, reduceIte]
    rw [e120, e240]
  · norm_num [calculateHarmonies, jsMod, jsTrunc, clip, min_def, max_def]
    simp

/-- Witness for C5 at the base `(0, 50, 50)`. -/
theorem claim_C5_witness :
    calculateHarmonies "triadic" 0 50 50 (fun _ => 0) =
      [⟨0, 50, 50⟩, ⟨120, 50, 50⟩, ⟨240, 50, 50⟩, ⟨120, 50, 70⟩, ⟨240, 50, 30⟩] :=
  (claim_C5_triadic 0 50 50 (fun _ => 0) (by decide) (by decide) (by decide)
    (by decide) (by decide) (by decide)).2

end ColorLab

namespace ColorLab

/-- Claim C7: for every recognized mode and base hue `h ∈ [0, 360)`, every
hue among the five derived triples lies in `[0, 360)`: all hue arithmetic
wraps with the non-negative remainder. -/
theorem claim_C7_hue_range (mode : String) (hmode : mode ∈ recognizedModes)
    (h s l : ℚ) (rng : ℕ → ℚ) (hh0 : 0 ≤ h) (hh1 : h < 360) :
    ∀ c ∈ calculateHarmonies mode h s l rng, 0 ≤ c.h ∧ c.h < 360 := by
  fin_cases hmode <;>
  · intro c hc
    simp only [calculateHarmonies, String.reduceEq, reduceIte, List.mem_cons,
      List.not_mem_nil, or_false] at hc
    rcases hc with rfl | rfl | rfl | rfl | rfl <;>
      first
        | exact ⟨hh0, hh1⟩
        | exact hue_wrap_mem _ (by linarith)

/-- Witness for C7: the base slot of the triadic palette at
`(h, s, l) = (0, 50, 50)` has its hue in `[0, 360)`. -/
theorem claim_C7_witness :
    0 ≤ (HSL.mk 0 50 50).h ∧ (HSL.mk 0 50 50).h < 360 :=
  claim_C7_hue_range "triadic" (by decide) 0 50 50 (fun _ => 0)
    (by norm_num) (by norm_num) (HSL.mk 0 50 50) (by simp [calculateHarmonies])

/-- Claim C8: on every recognized mode, `calculateHarmonies` is
deterministic: its result does not depend on the random stream, so two
calls with identical `(mode, h, s, l)` inputs return identical 5-element
sequences. -/
theorem claim_C8_deterministic (mode : String) (hmode : mode ∈ recognizedModes)
    (h s l : ℚ) (rng₁ rng₂ : ℕ → ℚ) :
    calculateHarmonies mode h s l rng₁ = calculateHarmonies mode h s l rng₂ := by
  fin_cases hmode <;> simp [calculateHarmonies]

/-- Witness for C8: square mode under two different random streams. -/
theorem claim_C8_witness :
    calculateHarmonies "square" 10 20 30 (fun _ => 0) =
      calculateHarmonies "square" 10 20 30 (fun i => (i : ℚ)) :=
  claim_C8_deterministic "square" (by decide) 10 20 30 (fun _ => 0) (fun i => (i : ℚ))

/-- Claim C9: on every unrecognized mode, `calculateHarmonies` does not
error: it returns the five triples `{ h: random * 360, s: 60, l: 50 }`
drawn from five successive random values, so the result has length 5 and
every slot has `s = 60` and `l = 50` with a random hue. -/
theorem claim_C9_fallback_random (mode : String) (hmode : mode ∉ recognizedModes)
    (h s l : ℚ) (rng : ℕ → ℚ) :
    calculateHarmonies mode h s l rng =
      [⟨rng 0 * 360, 60, 50⟩, ⟨rng 1 * 360, 60, 50⟩, ⟨rng 2 * 360, 60, 50⟩,
       ⟨rng 3 * 360, 60, 50⟩, ⟨rng 4 * 360, 60, 50⟩] ∧
    (calculateHarmonies mode h s l rng).length = 5 ∧
    ∀ c ∈ calculateHarmonies mode h s l rng, c.s = 60 ∧ c.l = 50 := by
  simp only [recognizedModes, List.mem_cons, List.not_mem_nil, or_false, not_or] at hmode
  obtain ⟨m1, m2, m3, m4, m5, m6⟩ := hmode
  have e : calculateHarmonies mode h s l rng =
      [⟨rng 0 * 360, 60, 50⟩, ⟨rng 1 * 360, 60, 50⟩, ⟨rng 2 * 360, 60, 50⟩,
       ⟨rng 3 * 360, 60, 50⟩, ⟨rng 4 * 360, 60, 50⟩] := by
    simp only [calculateHarmonies, if_neg m1, if_neg m2, if_neg m3, if_neg m4,
      if_neg m5, if_neg m6]
    rfl
  refine ⟨e, by rw [e]; rfl, ?_⟩
  rw [e]
  intro c hc
  simp only [List.mem_cons, List.not_mem_nil, or_false] at hc
  rcases hc with rfl | rfl | rfl | rfl | rfl <;> exact ⟨rfl, rfl⟩

/-- Witness for C9 at the unrecognized mode string `"random"`. -/
theorem claim_C9_witness :
    calculateHarmonies "random" 0 0 0 (fun _ => (1/2 : ℚ)) =
      [⟨(1/2 : ℚ) * 360, 60, 50⟩, ⟨(1/2 : ℚ) * 360, 60, 50⟩, ⟨(1/2 : ℚ) * 360, 60, 50⟩,
       ⟨(1/2 : ℚ) * 360, 60, 50⟩, ⟨(1/2 : ℚ) * 360, 60, 50⟩] ∧
    (calculateHarmonies "random" 0 0 0 (fun _ => (1/2 : ℚ))).length = 5 ∧
    ∀ c ∈ calculateHarmonies "random" 0 0 0 (fun _ => (1/2 : ℚ)), c.s = 60 ∧ c.l = 50 :=
  claim_C9_fallback_random "random" (by decide) 0 0 0 (fun _ => (1/2 : ℚ))

end ColorLab
